import Mathlib

/-!
Verification of the chip-ledger core of the poker chat bot.

The application layer (`application/services.py`) is embedded as pure
Lean functions over an explicit `State` that models the three durable
stores (AccountStore, UserStore, IdentityStore).  The store operations
themselves are not part of the application source; they are modelled
from the specification of the collaborator contracts.
-/

namespace PokerBot

/-- The `Account` dataclass from `domain/models`: identity of record. -/
structure Account where
  id : String
  username : String
  password_hash : String
deriving Repr, DecidableEq

/-- The `User` dataclass from `domain/models`: the economic actor. -/
structure User where
  id : String
  first_name : String
  last_name : String
  balance : Int
deriving Repr, DecidableEq

/-- `ExternalContext` from `application/services.py`: channel-agnostic caller info. -/
structure ExternalContext where
  provider : String
  provider_user_id : String
  first_name : String
  last_name : String
deriving Repr, DecidableEq

/-- `BroadcastMessage` from `application/services.py`. -/
structure BroadcastMessage where
  user_id : String
  text : String
deriving Repr, DecidableEq

/-- `OperationResult` from `application/services.py`. -/
structure OperationResult where
  success : Bool
  error_message : Option String := none
  broadcasts : List BroadcastMessage := []
deriving Repr, DecidableEq

/-- `InitiateBuyFromResult` from `application/services.py`. -/
structure InitiateBuyFromResult where
  success : Bool
  error_message : Option String := none
  source_user : Option User := none
  candidates : List User := []
deriving Repr, DecidableEq

/-- Modelled from the spec: an `ExternalIdentity link`, one row of the
relation `(channel, externalId) → accountId` held by the IdentityStore. -/
structure IdentityLink where
  provider : String
  provider_user_id : String
  account_id : String
deriving Repr, DecidableEq

/-- Modelled from the spec: the combined durable state of the three store
collaborators (AccountStore, UserStore, IdentityStore), whose concrete
sqlite implementations are outside the applicative core. -/
structure State where
  accounts : List Account
  users : List User
  identities : List IdentityLink
deriving Repr, DecidableEq

/-- Modelled from the spec: `AccountStore.getByUsername(username) → Account | None`
(usernames are unique keys). -/
def get_by_username (s : State) (username : String) : Option Account :=
  s.accounts.find? (fun a => a.username == username)

/-- Modelled from the spec: `AccountStore.create(account)`. -/
def create_account (s : State) (a : Account) : State :=
  { s with accounts := s.accounts ++ [a] }

/-- Modelled from the spec: `UserStore.get(id) → User | None`. -/
def get_user (s : State) (id : String) : Option User :=
  s.users.find? (fun u => u.id == id)

/-- Modelled from the spec: `UserStore.add(user)`. -/
def add_user (s : State) (u : User) : State :=
  { s with users := s.users ++ [u] }

/-- Modelled from the spec: `UserStore.updateBalance(id, delta)`, an atomic
balance delta on the user row with the given id. -/
def update_balance (s : State) (id : String) (delta : Int) : State :=
  { s with
    users := s.users.map
      (fun u => if u.id == id then { u with balance := u.balance + delta } else u) }

/-- Modelled from the spec: `UserStore.getAll() → sequence of User`. -/
def get_all_users (s : State) : List User :=
  s.users

/-- Modelled from the spec: `IdentityStore.findAccountId(channel, externalId) → accountId | None`. -/
def find_account_id (s : State) (provider provider_user_id : String) : Option String :=
  (s.identities.find?
      (fun l => l.provider == provider && l.provider_user_id == provider_user_id)).map
    (fun l => l.account_id)

/-- Modelled from the spec: `IdentityStore.set(channel, externalId, accountId)` —
upsert, overwriting any prior link for that exact pair. -/
def set_external_identity (s : State) (provider provider_user_id account_id : String) : State :=
  { s with
    identities :=
      ⟨provider, provider_user_id, account_id⟩ ::
        s.identities.filter
          (fun l => !(l.provider == provider && l.provider_user_id == provider_user_id)) }

/-- Modelled from the spec: `IdentityStore.clear(channel, externalId)` —
deletes the link for that exact pair if present, no-op otherwise. -/
def clear_external_identity (s : State) (provider provider_user_id : String) : State :=
  { s with
    identities :=
      s.identities.filter
        (fun l => !(l.provider == provider && l.provider_user_id == provider_user_id)) }

/-- Modelled from the spec: `IdentityRepository.find_user_by_external` — translate
the pair through the IdentityStore to an accountId, then through the UserStore
to a User (spec section 4.1, IdentityResolver). -/
def find_user_by_external (s : State) (provider provider_user_id : String) : Option User :=
  match find_account_id s provider provider_user_id with
  | none => none
  | some account_id => get_user s account_id

/-- `_validate_positive_amount` from `application/services.py`. -/
def _validate_positive_amount (amount : Int) : Option String :=
  if amount ≤ 0 then some "Amount must be greater than zero." else none

/-- `_get_logged_in_user` from `application/services.py`. -/
def _get_logged_in_user (s : State) (ctx : ExternalContext) : Option User :=
  find_user_by_external s ctx.provider ctx.provider_user_id

/-- `register_or_login_user` from `application/services.py`.  The fresh
`uuid4().hex` drawn on the registration path is passed in as `freshId`. -/
def register_or_login_user (s : State) (ctx : ExternalContext) (username : String)
    (freshId : String) : State × OperationResult :=
  match get_by_username s username with
  | none =>
      let s1 := create_account s ⟨freshId, username, ""⟩
      let s2 := add_user s1 ⟨freshId, username, "", 0⟩
      let s3 := set_external_identity s2 ctx.provider ctx.provider_user_id freshId
      (s3, ⟨true, none, []⟩)
  | some existing =>
      let s1 := set_external_identity s ctx.provider ctx.provider_user_id existing.id
      (s1, ⟨true, none, []⟩)

/-- `logout_external_identity` from `application/services.py`. -/
def logout_external_identity (s : State) (ctx : ExternalContext) : State × OperationResult :=
  (clear_external_identity s ctx.provider ctx.provider_user_id, ⟨true, none, []⟩)

/-- `buy_chips_from_bank` from `application/services.py`. -/
def buy_chips_from_bank (s : State) (ctx : ExternalContext) (amount : Int) :
    State × OperationResult :=
  match _validate_positive_amount amount with
  | some err => (s, ⟨false, some err, []⟩)
  | none =>
  match _get_logged_in_user s ctx with
  | none =>
      (s, ⟨false, some "You must /join <username> <password> before buying chips.", []⟩)
  | some user =>
      let s1 := update_balance s user.id (-amount)
      let text := user.first_name ++ " buys " ++ toString amount
      (s1, ⟨true, none, [⟨user.id, text⟩]⟩)

/-- `sell_chips_to_bank` from `application/services.py`. -/
def sell_chips_to_bank (s : State) (ctx : ExternalContext) (amount : Int) :
    State × OperationResult :=
  match _validate_positive_amount amount with
  | some err => (s, ⟨false, some err, []⟩)
  | none =>
  match _get_logged_in_user s ctx with
  | none =>
      (s, ⟨false, some "You must /join <username> <password> before selling chips.", []⟩)
  | some user =>
      let s1 := update_balance s user.id amount
      let text := user.first_name ++ " sells " ++ toString amount
      (s1, ⟨true, none, [⟨user.id, text⟩]⟩)

/-- `buy_chips_from_user` from `application/services.py`. -/
def buy_chips_from_user (s : State) (ctx : ExternalContext) (amount : Int)
    (counterparty_username : String) : State × OperationResult :=
  match _validate_positive_amount amount with
  | some err => (s, ⟨false, some err, []⟩)
  | none =>
  match _get_logged_in_user s ctx with
  | none =>
      (s, ⟨false,
        some "You must /join <username> <password> before buying from another player.", []⟩)
  | some buyer =>
  match get_by_username s counterparty_username with
  | none => (s, ⟨false, some "Seller username not found.", []⟩)
  | some seller_account =>
  match get_user s seller_account.id with
  | none => (s, ⟨false, some "Seller user not found.", []⟩)
  | some seller =>
  if buyer.id == seller.id then
    (s, ⟨false, some "You cannot buy chips from yourself.", []⟩)
  else
    let s1 := update_balance s buyer.id (-amount)
    let s2 := update_balance s1 seller.id amount
    let text := buyer.first_name ++ " buys " ++ toString amount ++ " from " ++ seller.first_name
    (s2, ⟨true, none, [⟨buyer.id, text⟩, ⟨seller.id, text⟩]⟩)

/-- `sell_chips_to_user` from `application/services.py`. -/
def sell_chips_to_user (s : State) (ctx : ExternalContext) (amount : Int)
    (counterparty_username : String) : State × OperationResult :=
  match _validate_positive_amount amount with
  | some err => (s, ⟨false, some err, []⟩)
  | none =>
  match _get_logged_in_user s ctx with
  | none =>
      (s, ⟨false,
        some "You must /join <username> <password> before selling to another player.", []⟩)
  | some seller =>
  match get_by_username s counterparty_username with
  | none => (s, ⟨false, some "Buyer username not found.", []⟩)
  | some buyer_account =>
  match get_user s buyer_account.id with
  | none => (s, ⟨false, some "Buyer user not found.", []⟩)
  | some buyer =>
  if buyer.id == seller.id then
    (s, ⟨false, some "You cannot sell chips to yourself.", []⟩)
  else
    let s1 := update_balance s buyer.id (-amount)
    let s2 := update_balance s1 seller.id amount
    let text := seller.first_name ++ " sells " ++ toString amount ++ " to " ++ buyer.first_name
    (s2, ⟨true, none, [⟨seller.id, text⟩, ⟨buyer.id, text⟩]⟩)

/-- `initiate_buy_from_player` from `application/services.py`.  The function
issues no store mutation; the state is returned unchanged in every branch. -/
def initiate_buy_from_player (s : State) (ctx : ExternalContext) (amount : Int) :
    State × InitiateBuyFromResult :=
  match _validate_positive_amount amount with
  | some err => (s, ⟨false, some err, none, []⟩)
  | none =>
  match _get_logged_in_user s ctx with
  | none =>
      (s, ⟨false,
        some "You must /join <username> <password> before buying from another player.",
        none, []⟩)
  | some source_user =>
      let candidates := (get_all_users s).filter (fun u => u.id != source_user.id)
      if candidates.isEmpty then
        (s, ⟨false, some "No other players available to buy from.", some source_user, []⟩)
      else
        (s, ⟨true, none, some source_user, candidates⟩)

/-- `confirm_buy_from_player` from `application/services.py`. -/
def confirm_buy_from_player (s : State) (source_user_id target_user_id : String)
    (amount : Int) : State × OperationResult :=
  match _validate_positive_amount amount with
  | some err => (s, ⟨false, some err, []⟩)
  | none =>
  match get_user s source_user_id, get_user s target_user_id with
  | some source, some target =>
      let s1 := update_balance s source.id (-amount)
      let s2 := update_balance s1 target.id amount
      let users := get_all_users s2
      let text := source.first_name ++ " buys " ++ toString amount ++ " from " ++ target.first_name
      (s2, ⟨true, none, users.map (fun u => ⟨u.id, text⟩)⟩)
  | _, _ => (s, ⟨false, some " Buyer or seller not found.", []⟩)

/-- `reject_buy_from_player` from `application/services.py`: touches no store,
so it takes no state; `target_user_id` and `amount` are accepted but unused. -/
def reject_buy_from_player (source_user_id target_user_id : String) (amount : Int) :
    OperationResult :=
  ⟨true, none, [⟨source_user_id, "haha sorry"⟩]⟩

/-- The balance recorded for a user id in the UserStore (0 when absent). -/
def balanceOf (s : State) (id : String) : Int :=
  match get_user s id with
  | some u => u.balance
  | none => 0

/-! ### Helper lemmas about the store model -/

/-- `find?` commutes with `map` when the map does not change the predicate. -/
theorem find?_map_eq {α : Type} (f : α → α) (p : α → Bool) (l : List α)
    (hp : ∀ u, p (f u) = p u) :
    (l.map f).find? p = (l.find? p).map f := by
  induction l with
  | nil => rfl
  | cons x xs ih =>
      by_cases h : p x
      · simp [List.find?, hp, h]
      · simp [List.find?, hp, h, ih]

/-- `find?` skips a filter that keeps every element the predicate accepts. -/
theorem find?_filter_keep {α : Type} (p q : α → Bool) (l : List α)
    (h : ∀ x, p x = true → q x = true) :
    (l.filter q).find? p = l.find? p := by
  induction l with
  | nil => rfl
  | cons x xs ih =>
      by_cases hq : q x
      · by_cases hp : p x
        · simp [List.filter, hq, List.find?, hp]
        · simp [List.filter, hq, List.find?, hp, ih]
      · have hp : p x = false := by
          cases hpx : p x with
          | false => rfl
          | true => exact absurd (h x hpx) (by simp [hq])
        simp [List.filter, hq, List.find?, hp, ih]

/-- `find?` on a list filtered by the negation of the predicate finds nothing. -/
theorem find?_filter_neg {α : Type} (p : α → Bool) (l : List α) :
    (l.filter (fun x => !(p x))).find? p = none := by
  rw [List.find?_eq_none]
  intro x hx
  have := List.of_mem_filter hx
  simpa using this

/-- A user returned by `get_user` carries the looked-up id. -/
theorem get_user_id (s : State) (id : String) (u : User)
    (h : get_user s id = some u) : u.id = id := by
  have := List.find?_some h
  simpa using this

/-- Effect of `update_balance` on a `get_user` lookup. -/
theorem get_user_update_balance (s : State) (id : String) (d : Int) (id' : String) :
    get_user (update_balance s id d) id' =
      (get_user s id').map
        (fun u => if u.id == id then { u with balance := u.balance + d } else u) := by
  unfold get_user update_balance
  exact find?_map_eq _ _ _ (fun u => by by_cases h : u.id == id <;> simp [h])

/-- `update_balance` touches only the users table. -/
theorem update_balance_frame (s : State) (id : String) (d : Int) :
    (update_balance s id d).accounts = s.accounts ∧
    (update_balance s id d).identities = s.identities :=
  ⟨rfl, rfl⟩

/-- `update_balance` adds the delta to the targeted user's recorded balance. -/
theorem balanceOf_update_eq (s : State) (id : String) (d : Int)
    (h : (get_user s id).isSome) :
    balanceOf (update_balance s id d) id = balanceOf s id + d := by
  obtain ⟨u, hu⟩ := Option.isSome_iff_exists.mp h
  have hid : u.id = id := get_user_id s id u hu
  unfold balanceOf
  rw [get_user_update_balance, hu]
  simp [hid]

/-- `update_balance` leaves every other user's recorded balance unchanged. -/
theorem balanceOf_update_ne (s : State) (id : String) (d : Int) (id' : String)
    (h : id' ≠ id) :
    balanceOf (update_balance s id d) id' = balanceOf s id' := by
  unfold balanceOf
  rw [get_user_update_balance]
  cases hu : get_user s id' with
  | none => rfl
  | some u =>
      have hid : u.id = id' := get_user_id s id' u hu
      simp [hid, h]

/-- `update_balance` keeps `get_user` lookups resolvable. -/
theorem get_user_update_isSome (s : State) (id : String) (d : Int) (id' : String) :
    (get_user (update_balance s id d) id').isSome = (get_user s id').isSome := by
  rw [get_user_update_balance]
  cases get_user s id' <;> rfl

/-- `find_account_id` ignores `update_balance`. -/
theorem find_account_id_update_balance (s : State) (id : String) (d : Int)
    (p pid : String) :
    find_account_id (update_balance s id d) p pid = find_account_id s p pid := rfl

/-- A positive amount passes `_validate_positive_amount`. -/
theorem validate_pos (amount : Int) (h : 0 < amount) :
    _validate_positive_amount amount = none := by
  unfold _validate_positive_amount
  rw [if_neg (by omega)]

/-- Effect of `update_balance` on caller resolution: the same user is still
resolved, with only its balance possibly rewritten. -/
theorem logged_in_update_balance (s : State) (ctx : ExternalContext)
    (id : String) (d : Int) :
    _get_logged_in_user (update_balance s id d) ctx =
      (_get_logged_in_user s ctx).map
        (fun u => if u.id == id then { u with balance := u.balance + d } else u) := by
  unfold _get_logged_in_user find_user_by_external
  rw [find_account_id_update_balance]
  cases find_account_id s ctx.provider ctx.provider_user_id with
  | none => rfl
  | some aid => exact get_user_update_balance s id d aid

/-- A resolved caller is present in the UserStore under its own id. -/
theorem logged_in_get_user (s : State) (ctx : ExternalContext) (u : User)
    (h : _get_logged_in_user s ctx = some u) : get_user s u.id = some u := by
  unfold _get_logged_in_user find_user_by_external at h
  cases haid : find_account_id s ctx.provider ctx.provider_user_id with
  | none => rw [haid] at h; exact absurd h (by simp)
  | some aid =>
      rw [haid] at h
      have hid : u.id = aid := get_user_id s aid u h
      rw [hid]
      exact h

/-- Effect of `set_external_identity` on `find_account_id`. -/
theorem find_account_id_set (s : State) (p pid aid p' pid' : String) :
    find_account_id (set_external_identity s p pid aid) p' pid' =
      if p' = p ∧ pid' = pid then some aid else find_account_id s p' pid' := by
  unfold find_account_id set_external_identity
  by_cases h : p' = p ∧ pid' = pid
  · obtain ⟨h1, h2⟩ := h
    subst h1; subst h2
    simp [List.find?]
  · rw [if_neg h]
    have hhead : ((p == p') && (pid == pid')) = false := by
      rcases not_and_or.mp h with h1 | h2
      · have hne : p ≠ p' := fun hh => h1 hh.symm
        simp [hne]
      · have hne : pid ≠ pid' := fun hh => h2 hh.symm
        simp [hne]
    simp only [List.find?, hhead]
    rw [find?_filter_keep]
    intro x hx
    simp only [Bool.and_eq_true, beq_iff_eq] at hx
    rw [hx.1, hx.2]
    rcases not_and_or.mp h with h1 | h2
    · have hb : (p' == p) = false := by simp [h1]
      simp [hb]
    · have hb : (pid' == pid) = false := by simp [h2]
      simp [hb]

/-- Effect of `clear_external_identity` on the cleared pair. -/
theorem find_account_id_clear_self (s : State) (p pid : String) :
    find_account_id (clear_external_identity s p pid) p pid = none := by
  unfold find_account_id clear_external_identity
  rw [find?_filter_neg]
  rfl

/-- `clear_external_identity` leaves links of every other pair unchanged. -/
theorem find_account_id_clear_other (s : State) (p pid p' pid' : String)
    (h : ¬(p' = p ∧ pid' = pid)) :
    find_account_id (clear_external_identity s p pid) p' pid' =
      find_account_id s p' pid' := by
  unfold find_account_id clear_external_identity
  rw [find?_filter_keep]
  intro x hx
  simp only [Bool.and_eq_true, beq_iff_eq] at hx
  rw [hx.1, hx.2]
  rcases not_and_or.mp h with h1 | h2
  · have hb : (p' == p) = false := by simp [h1]
    simp [hb]
  · have hb : (pid' == pid) = false := by simp [h2]
    simp [hb]

/-- Map over a list twice where the first pass preserves ids: a projection of
ids through both passes equals the projection through neither. -/
theorem map_id_invariant (f : User → User) (hf : ∀ u, (f u).id = u.id)
    (g : String → BroadcastMessage) (l : List User) :
    (l.map f).map (fun u => g u.id) = l.map (fun u => g u.id) := by
  induction l with
  | nil => rfl
  | cons x xs ih => simp [hf, ih]

/-- Applying `−a` and then `+a` to the same user id restores the whole state. -/
theorem update_balance_cancel (s : State) (id : String) (a : Int) :
    update_balance (update_balance s id (-a)) id a = s := by
  unfold update_balance
  cases s with
  | mk accounts users identities =>
      simp only [State.mk.injEq, and_true, true_and]
      induction users with
      | nil => rfl
      | cons x xs ih =>
          by_cases h : x.id == id
          · cases x with
            | mk xid xf xl xb =>
                simp only [List.map, h, if_pos, List.cons.injEq] at ih ⊢
                refine ⟨by simp [h], ih⟩
          · simp only [List.map, h, List.cons.injEq] at ih ⊢
            refine ⟨by simp [h], ih⟩

/-! ### Sample data used by the concrete witnesses -/

def aliceAcct : Account := ⟨"a1", "alice", ""⟩

def bobAcct : Account := ⟨"b1", "bob", ""⟩

def aliceU : User := ⟨"a1", "alice", "", 100⟩

def bobU : User := ⟨"b1", "bob", "", 50⟩

def carolU : User := ⟨"c1", "carol", "", 7⟩

def ctxA : ExternalContext := ⟨"telegram", "111", "Alice", "A"⟩

def sampleState : State :=
  ⟨[aliceAcct, bobAcct], [aliceU, bobU, carolU], [⟨"telegram", "111", "a1"⟩]⟩

/-! ### Claim theorems -/

/-- Claim C3: for every chip operation (buyFromBank, sellToBank, buyFromPlayer,
sellToPlayer, initiate, confirm) and every integer amount ≤ 0, the operation
returns a validation failure and performs no balance mutation, no identity-link
mutation, and produces no notification. -/
theorem nonpositive_amount_rejected (s : State) (ctx : ExternalContext) (amount : Int)
    (uname sid tid : String) (h : amount ≤ 0) :
    buy_chips_from_bank s ctx amount =
      (s, ⟨false, some "Amount must be greater than zero.", []⟩) ∧
    sell_chips_to_bank s ctx amount =
      (s, ⟨false, some "Amount must be greater than zero.", []⟩) ∧
    buy_chips_from_user s ctx amount uname =
      (s, ⟨false, some "Amount must be greater than zero.", []⟩) ∧
    sell_chips_to_user s ctx amount uname =
      (s, ⟨false, some "Amount must be greater than zero.", []⟩) ∧
    initiate_buy_from_player s ctx amount =
      (s, ⟨false, some "Amount must be greater than zero.", none, []⟩) ∧
    confirm_buy_from_player s sid tid amount =
      (s, ⟨false, some "Amount must be greater than zero.", []⟩) := by
  have hv : _validate_positive_amount amount = some "Amount must be greater than zero." := by
    unfold _validate_positive_amount
    rw [if_pos h]
  refine ⟨?_, ?_, ?_, ?_, ?_, ?_⟩ <;>
    simp only [buy_chips_from_bank, sell_chips_to_bank, buy_chips_from_user,
      sell_chips_to_user, initiate_buy_from_player, confirm_buy_from_player, hv]

/-- Witness for claim C3 at the concrete amounts 0 and −5. -/
theorem nonpositive_amount_rejected_witness :
    ((0 : Int) ≤ 0 ∧ (-5 : Int) ≤ 0) ∧
    buy_chips_from_bank sampleState ctxA 0 =
      (sampleState, ⟨false, some "Amount must be greater than zero.", []⟩) ∧
    buy_chips_from_bank sampleState ctxA (-5) =
      (sampleState, ⟨false, some "Amount must be greater than zero.", []⟩) :=
  ⟨⟨by decide, by decide⟩,
   (nonpositive_amount_rejected sampleState ctxA 0 "bob" "a1" "b1" (by decide)).1,
   (nonpositive_amount_rejected sampleState ctxA (-5) "bob" "a1" "b1" (by decide)).1⟩

/-- Claim C8: `reject_buy_from_player` performs no balance mutation (it touches
no store), always succeeds, and produces exactly one notification to the source
user with the literal text "haha sorry"; the target id and amount arguments
have no effect on the result. -/
theorem reject_buy_from_player_spec (source_user_id target_user_id tid2 : String)
    (amount a2 : Int) :
    reject_buy_from_player source_user_id target_user_id amount =
      ⟨true, none, [⟨source_user_id, "haha sorry"⟩]⟩ ∧
    reject_buy_from_player source_user_id target_user_id amount =
      reject_buy_from_player source_user_id tid2 a2 :=
  ⟨rfl, rfl⟩

/-- Claim C1: for a positive amount, a logged-in buyer and a distinct existing
counterparty resolved by username, `buy_chips_from_user` succeeds, moves the
amount from buyer to seller leaving the sum unchanged, and sends the same text
"buyer buys amount from seller" to exactly the two parties. -/
theorem buy_chips_from_user_transfers (s : State) (ctx : ExternalContext) (amount : Int)
    (uname : String) (buyer : User) (acct : Account) (seller : User)
    (hpos : 0 < amount)
    (hbuyer : _get_logged_in_user s ctx = some buyer)
    (hacct : get_by_username s uname = some acct)
    (hseller : get_user s acct.id = some seller)
    (hne : buyer.id ≠ seller.id) :
    (buy_chips_from_user s ctx amount uname).2.success = true ∧
    balanceOf (buy_chips_from_user s ctx amount uname).1 buyer.id =
      balanceOf s buyer.id - amount ∧
    balanceOf (buy_chips_from_user s ctx amount uname).1 seller.id =
      balanceOf s seller.id + amount ∧
    balanceOf (buy_chips_from_user s ctx amount uname).1 buyer.id +
        balanceOf (buy_chips_from_user s ctx amount uname).1 seller.id =
      balanceOf s buyer.id + balanceOf s seller.id ∧
    (buy_chips_from_user s ctx amount uname).2.broadcasts =
      [⟨buyer.id, buyer.first_name ++ " buys " ++ toString amount ++ " from " ++
          seller.first_name⟩,
       ⟨seller.id, buyer.first_name ++ " buys " ++ toString amount ++ " from " ++
          seller.first_name⟩] := by
  have hbeq : (buyer.id == seller.id) = false := by simp [hne]
  have hg : get_user s buyer.id = some buyer := logged_in_get_user s ctx buyer hbuyer
  have hsome : (get_user s buyer.id).isSome := by rw [hg]; rfl
  have hsid : seller.id = acct.id := get_user_id s acct.id seller hseller
  have hgs : get_user s seller.id = some seller := by rw [hsid]; exact hseller
  have hsome2 : (get_user (update_balance s buyer.id (-amount)) seller.id).isSome := by
    rw [get_user_update_isSome, hgs]; rfl
  have hr : buy_chips_from_user s ctx amount uname =
      (update_balance (update_balance s buyer.id (-amount)) seller.id amount,
       ⟨true, none,
        [⟨buyer.id, buyer.first_name ++ " buys " ++ toString amount ++ " from " ++
            seller.first_name⟩,
         ⟨seller.id, buyer.first_name ++ " buys " ++ toString amount ++ " from " ++
            seller.first_name⟩]⟩) := by
    simp only [buy_chips_from_user, validate_pos amount hpos, hbuyer, hacct, hseller, hbeq]
    simp
  rw [hr]
  have hb1 : balanceOf
      (update_balance (update_balance s buyer.id (-amount)) seller.id amount) buyer.id =
      balanceOf s buyer.id - amount := by
    rw [balanceOf_update_ne _ _ _ _ hne, balanceOf_update_eq _ _ _ hsome]
    ring
  have hb2 : balanceOf
      (update_balance (update_balance s buyer.id (-amount)) seller.id amount) seller.id =
      balanceOf s seller.id + amount := by
    rw [balanceOf_update_eq _ _ _ hsome2, balanceOf_update_ne _ _ _ _ (Ne.symm hne)]
  exact ⟨rfl, hb1, hb2, by rw [hb1, hb2]; ring, rfl⟩

/-- Witness for claim C1: alice (balance 100) buys 30 from bob (balance 50). -/
theorem buy_chips_from_user_transfers_witness :
    ((0 : Int) < 30 ∧ _get_logged_in_user sampleState ctxA = some aliceU ∧
      get_by_username sampleState "bob" = some bobAcct ∧
      get_user sampleState bobAcct.id = some bobU ∧ aliceU.id ≠ bobU.id) ∧
    ((buy_chips_from_user sampleState ctxA 30 "bob").2.success = true ∧
     balanceOf (buy_chips_from_user sampleState ctxA 30 "bob").1 aliceU.id =
       balanceOf sampleState aliceU.id - 30 ∧
     balanceOf (buy_chips_from_user sampleState ctxA 30 "bob").1 bobU.id =
       balanceOf sampleState bobU.id + 30 ∧
     balanceOf (buy_chips_from_user sampleState ctxA 30 "bob").1 aliceU.id +
         balanceOf (buy_chips_from_user sampleState ctxA 30 "bob").1 bobU.id =
       balanceOf sampleState aliceU.id + balanceOf sampleState bobU.id ∧
     (buy_chips_from_user sampleState ctxA 30 "bob").2.broadcasts =
       [⟨aliceU.id, aliceU.first_name ++ " buys " ++ toString (30 : Int) ++ " from " ++
           bobU.first_name⟩,
        ⟨bobU.id, aliceU.first_name ++ " buys " ++ toString (30 : Int) ++ " from " ++
           bobU.first_name⟩]) :=
  ⟨⟨by decide, by decide, by decide, by decide, by decide⟩,
   buy_chips_from_user_transfers sampleState ctxA 30 "bob" aliceU bobAcct bobU
     (by decide) (by decide) (by decide) (by decide) (by decide)⟩

/-- Claim C4: for a logged-in caller and positive amount, `buy_chips_from_bank`
decreases the caller's balance by the amount (the caller pays the bank) and
`sell_chips_to_bank` increases it, each notifying only the caller; buying then
immediately selling the same amount restores the original balance. -/
theorem bank_buy_sell_spec (s : State) (ctx : ExternalContext) (amount : Int) (user : User)
    (hpos : 0 < amount) (huser : _get_logged_in_user s ctx = some user) :
    (buy_chips_from_bank s ctx amount).2.success = true ∧
    balanceOf (buy_chips_from_bank s ctx amount).1 user.id = balanceOf s user.id - amount ∧
    (buy_chips_from_bank s ctx amount).2.broadcasts =
      [⟨user.id, user.first_name ++ " buys " ++ toString amount⟩] ∧
    (sell_chips_to_bank s ctx amount).2.success = true ∧
    balanceOf (sell_chips_to_bank s ctx amount).1 user.id = balanceOf s user.id + amount ∧
    (sell_chips_to_bank s ctx amount).2.broadcasts =
      [⟨user.id, user.first_name ++ " sells " ++ toString amount⟩] ∧
    balanceOf (sell_chips_to_bank (buy_chips_from_bank s ctx amount).1 ctx amount).1 user.id =
      balanceOf s user.id := by
  have hg : get_user s user.id = some user := logged_in_get_user s ctx user huser
  have hsome : (get_user s user.id).isSome := by rw [hg]; rfl
  have hbuy : buy_chips_from_bank s ctx amount =
      (update_balance s user.id (-amount),
       ⟨true, none, [⟨user.id, user.first_name ++ " buys " ++ toString amount⟩]⟩) := by
    simp only [buy_chips_from_bank, validate_pos amount hpos, huser]
  have hsell : sell_chips_to_bank s ctx amount =
      (update_balance s user.id amount,
       ⟨true, none, [⟨user.id, user.first_name ++ " sells " ++ toString amount⟩]⟩) := by
    simp only [sell_chips_to_bank, validate_pos amount hpos, huser]
  have huser1 : _get_logged_in_user (update_balance s user.id (-amount)) ctx =
      some { user with balance := user.balance + -amount } := by
    rw [logged_in_update_balance, huser]
    simp
  have hsome1 : (get_user (update_balance s user.id (-amount)) user.id).isSome := by
    rw [get_user_update_isSome]
    exact hsome
  have hsell1 : sell_chips_to_bank (update_balance s user.id (-amount)) ctx amount =
      (update_balance (update_balance s user.id (-amount)) user.id amount,
       ⟨true, none, [⟨user.id, user.first_name ++ " sells " ++ toString amount⟩]⟩) := by
    simp only [sell_chips_to_bank, validate_pos amount hpos, huser1]
  refine ⟨?_, ?_, ?_, ?_, ?_, ?_, ?_⟩
  · rw [hbuy]
  · rw [hbuy]
    rw [balanceOf_update_eq _ _ _ hsome]
    ring
  · rw [hbuy]
  · rw [hsell]
  · rw [hsell]
    exact balanceOf_update_eq _ _ _ hsome
  · rw [hsell]
  · rw [hbuy, hsell1]
    rw [balanceOf_update_eq _ _ _ hsome1, balanceOf_update_eq _ _ _ hsome]
    ring

/-- Witness for claim C4: alice buys 25 from the bank then sells 25 back. -/
theorem bank_buy_sell_spec_witness :
    ((0 : Int) < 25 ∧ _get_logged_in_user sampleState ctxA = some aliceU) ∧
    ((buy_chips_from_bank sampleState ctxA 25).2.success = true ∧
     balanceOf (buy_chips_from_bank sampleState ctxA 25).1 aliceU.id =
       balanceOf sampleState aliceU.id - 25 ∧
     (buy_chips_from_bank sampleState ctxA 25).2.broadcasts =
       [⟨aliceU.id, aliceU.first_name ++ " buys " ++ toString (25 : Int)⟩] ∧
     (sell_chips_to_bank sampleState ctxA 25).2.success = true ∧
     balanceOf (sell_chips_to_bank sampleState ctxA 25).1 aliceU.id =
       balanceOf sampleState aliceU.id + 25 ∧
     (sell_chips_to_bank sampleState ctxA 25).2.broadcasts =
       [⟨aliceU.id, aliceU.first_name ++ " sells " ++ toString (25 : Int)⟩] ∧
     balanceOf
         (sell_chips_to_bank (buy_chips_from_bank sampleState ctxA 25).1 ctxA 25).1
         aliceU.id =
       balanceOf sampleState aliceU.id) :=
  ⟨⟨by decide, by decide⟩,
   bank_buy_sell_spec sampleState ctxA 25 aliceU (by decide) (by decide)⟩

/-- Claim C9: when the counterparty username resolves to the caller's own user,
the direct two-party operations fail with a self-transaction error, mutate no
balance and produce no notification. -/
theorem self_transaction_rejected (s : State) (ctx : ExternalContext) (amount : Int)
    (uname : String) (user : User) (acct : Account) (cp : User)
    (hpos : 0 < amount)
    (huser : _get_logged_in_user s ctx = some user)
    (hacct : get_by_username s uname = some acct)
    (hcp : get_user s acct.id = some cp)
    (hid : cp.id = user.id) :
    buy_chips_from_user s ctx amount uname =
      (s, ⟨false, some "You cannot buy chips from yourself.", []⟩) ∧
    sell_chips_to_user s ctx amount uname =
      (s, ⟨false, some "You cannot sell chips to yourself.", []⟩) := by
  have hbeq : (user.id == cp.id) = true := by simp [hid]
  have hbeq2 : (cp.id == user.id) = true := by simp [hid]
  constructor
  · simp only [buy_chips_from_user, validate_pos amount hpos, huser, hacct, hcp, hbeq]
    simp
  · simp only [sell_chips_to_user, validate_pos amount hpos, huser, hacct, hcp, hbeq2]
    simp

/-- Witness for claim C9: alice attempting to buy from or sell to "alice". -/
theorem self_transaction_rejected_witness :
    ((0 : Int) < 10 ∧ _get_logged_in_user sampleState ctxA = some aliceU ∧
      get_by_username sampleState "alice" = some aliceAcct ∧
      get_user sampleState aliceAcct.id = some aliceU ∧ aliceU.id = aliceU.id) ∧
    (buy_chips_from_user sampleState ctxA 10 "alice" =
      (sampleState, ⟨false, some "You cannot buy chips from yourself.", []⟩) ∧
     sell_chips_to_user sampleState ctxA 10 "alice" =
      (sampleState, ⟨false, some "You cannot sell chips to yourself.", []⟩)) :=
  ⟨⟨by decide, by decide, by decide, by decide, rfl⟩,
   self_transaction_rejected sampleState ctxA 10 "alice" aliceU aliceAcct aliceU
     (by decide) (by decide) (by decide) (by decide) rfl⟩

/-- Broadcast construction only reads user ids, which `update_balance` keeps. -/
theorem users_map_broadcast_update (s : State) (id : String) (d : Int) (t : String) :
    (update_balance s id d).users.map (fun u => BroadcastMessage.mk u.id t) =
      s.users.map (fun u => BroadcastMessage.mk u.id t) := by
  unfold update_balance
  dsimp only
  induction s.users with
  | nil => rfl
  | cons x xs ih =>
      simp only [List.map]
      by_cases h : x.id == id <;> simp [h, ih] <;>
        · intro a ha
          by_cases h2 : a.id = id <;> simp [h2]

/-- Claim C2: `confirm_buy_from_player` fails with the not-found error and
mutates nothing when either id is unknown; when both resolve it succeeds, moves
the amount from source to target (for distinct parties) and broadcasts the text
"source buys amount from target" to every known user. -/
theorem confirm_buy_from_player_spec (s : State) (sid tid : String) (amount : Int)
    (hpos : 0 < amount) :
    ((get_user s sid = none ∨ get_user s tid = none) →
      confirm_buy_from_player s sid tid amount =
        (s, ⟨false, some " Buyer or seller not found.", []⟩)) ∧
    (∀ source target, get_user s sid = some source → get_user s tid = some target →
      (confirm_buy_from_player s sid tid amount).2.success = true ∧
      (confirm_buy_from_player s sid tid amount).2.broadcasts =
        s.users.map (fun u => ⟨u.id,
          source.first_name ++ " buys " ++ toString amount ++ " from " ++
            target.first_name⟩) ∧
      (source.id ≠ target.id →
        balanceOf (confirm_buy_from_player s sid tid amount).1 source.id =
          balanceOf s source.id - amount ∧
        balanceOf (confirm_buy_from_player s sid tid amount).1 target.id =
          balanceOf s target.id + amount)) := by
  constructor
  · intro hmiss
    rcases hmiss with hm | hm
    · cases ht : get_user s tid <;>
        simp only [confirm_buy_from_player, validate_pos amount hpos, hm, ht]
    · cases hs : get_user s sid <;>
        simp only [confirm_buy_from_player, validate_pos amount hpos, hs, hm]
  · intro source target hs ht
    have hr : confirm_buy_from_player s sid tid amount =
        (update_balance (update_balance s source.id (-amount)) target.id amount,
         ⟨true, none,
          (update_balance (update_balance s source.id (-amount)) target.id amount).users.map
            (fun u => ⟨u.id, source.first_name ++ " buys " ++ toString amount ++ " from " ++
                target.first_name⟩)⟩) := by
      simp only [confirm_buy_from_player, validate_pos amount hpos, hs, ht, get_all_users]
    have hsrc : get_user s source.id = some source := by
      rw [get_user_id s sid source hs]
      exact hs
    have hsomeS : (get_user s source.id).isSome := by rw [hsrc]; rfl
    have htgt : get_user s target.id = some target := by
      rw [get_user_id s tid target ht]
      exact ht
    have hsomeT : (get_user (update_balance s source.id (-amount)) target.id).isSome := by
      rw [get_user_update_isSome, htgt]
      rfl
    refine ⟨by rw [hr], ?_, ?_⟩
    · rw [hr]
      rw [users_map_broadcast_update, users_map_broadcast_update]
    · intro hne
      constructor
      · rw [hr]
        rw [balanceOf_update_ne _ _ _ _ hne, balanceOf_update_eq _ _ _ hsomeS]
        ring
      · rw [hr]
        rw [balanceOf_update_eq _ _ _ hsomeT, balanceOf_update_ne _ _ _ _ (Ne.symm hne)]

/-- Witness for claim C2: alice confirms buying 10 from bob; carol also gets
the broadcast.  The not-found branch is exercised with an unknown target id. -/
theorem confirm_buy_from_player_spec_witness :
    ((0 : Int) < 10 ∧ get_user sampleState "a1" = some aliceU ∧
      get_user sampleState "b1" = some bobU ∧ get_user sampleState "zz" = none ∧
      aliceU.id ≠ bobU.id) ∧
    ((confirm_buy_from_player sampleState "a1" "b1" 10).2.success = true ∧
     (confirm_buy_from_player sampleState "a1" "b1" 10).2.broadcasts =
       sampleState.users.map (fun u => ⟨u.id,
         aliceU.first_name ++ " buys " ++ toString (10 : Int) ++ " from " ++
           bobU.first_name⟩) ∧
     balanceOf (confirm_buy_from_player sampleState "a1" "b1" 10).1 aliceU.id =
       balanceOf sampleState aliceU.id - 10 ∧
     balanceOf (confirm_buy_from_player sampleState "a1" "b1" 10).1 bobU.id =
       balanceOf sampleState bobU.id + 10) ∧
    confirm_buy_from_player sampleState "a1" "zz" 10 =
      (sampleState, ⟨false, some " Buyer or seller not found.", []⟩) := by
  have h := confirm_buy_from_player_spec sampleState "a1" "b1" 10 (by decide)
  have h2 := h.2 aliceU bobU (by decide) (by decide)
  have h3 := h2.2.2 (by decide)
  have hmiss := (confirm_buy_from_player_spec sampleState "a1" "zz" 10 (by decide)).1
    (Or.inr (by decide))
  exact ⟨⟨by decide, by decide, by decide, by decide, by decide⟩,
    ⟨h2.1, h2.2.1, h3.1, h3.2⟩, hmiss⟩

/-- Claim C10: `confirm_buy_from_player` has no self-transaction check: with a
single existing user as both parties it succeeds, every balance is net-unchanged,
and the text "u buys amount from u" is still broadcast to every known user. -/
theorem confirm_self_transaction (s : State) (uid : String) (amount : Int) (u : User)
    (hpos : 0 < amount) (hu : get_user s uid = some u) :
    (confirm_buy_from_player s uid uid amount).2.success = true ∧
    (∀ id, balanceOf (confirm_buy_from_player s uid uid amount).1 id = balanceOf s id) ∧
    (confirm_buy_from_player s uid uid amount).2.broadcasts =
      s.users.map (fun w => ⟨w.id,
        u.first_name ++ " buys " ++ toString amount ++ " from " ++ u.first_name⟩) := by
  have hid : u.id = uid := get_user_id s uid u hu
  have hr : confirm_buy_from_player s uid uid amount =
      (update_balance (update_balance s u.id (-amount)) u.id amount,
       ⟨true, none,
        (update_balance (update_balance s u.id (-amount)) u.id amount).users.map
          (fun w => ⟨w.id, u.first_name ++ " buys " ++ toString amount ++ " from " ++
              u.first_name⟩)⟩) := by
    simp only [confirm_buy_from_player, validate_pos amount hpos, hu, get_all_users]
  rw [update_balance_cancel] at hr
  exact ⟨by rw [hr], fun id => by rw [hr], by rw [hr]⟩

/-- Witness for claim C10: alice confirms a buy from herself. -/
theorem confirm_self_transaction_witness :
    ((0 : Int) < 10 ∧ get_user sampleState "a1" = some aliceU) ∧
    ((confirm_buy_from_player sampleState "a1" "a1" 10).2.success = true ∧
     (∀ id, balanceOf (confirm_buy_from_player sampleState "a1" "a1" 10).1 id =
       balanceOf sampleState id) ∧
     (confirm_buy_from_player sampleState "a1" "a1" 10).2.broadcasts =
       sampleState.users.map (fun w => ⟨w.id,
         aliceU.first_name ++ " buys " ++ toString (10 : Int) ++ " from " ++
           aliceU.first_name⟩)) :=
  ⟨⟨by decide, by decide⟩,
   confirm_self_transaction sampleState "a1" 10 aliceU (by decide) (by decide)⟩

/-- Claim C7: for a positive amount and logged-in caller, `initiate_buy_from_player`
returns the resolved source user and every other known user as candidates, fails
with the no-candidates error exactly when no other user exists, and never mutates
the state (the result also carries no notification field at all). -/
theorem initiate_buy_from_player_spec (s : State) (ctx : ExternalContext) (amount : Int)
    (source_user : User) (hpos : 0 < amount)
    (hsrc : _get_logged_in_user s ctx = some source_user) :
    (initiate_buy_from_player s ctx amount).1 = s ∧
    (initiate_buy_from_player s ctx amount).2.source_user = some source_user ∧
    ((initiate_buy_from_player s ctx amount).2.success = true ↔
      s.users.filter (fun u => u.id != source_user.id) ≠ []) ∧
    (s.users.filter (fun u => u.id != source_user.id) = [] →
      (initiate_buy_from_player s ctx amount).2 =
        ⟨false, some "No other players available to buy from.", some source_user, []⟩) ∧
    (s.users.filter (fun u => u.id != source_user.id) ≠ [] →
      (initiate_buy_from_player s ctx amount).2 =
        ⟨true, none, some source_user,
         s.users.filter (fun u => u.id != source_user.id)⟩) := by
  by_cases hc : s.users.filter (fun u => u.id != source_user.id) = []
  · have hr : initiate_buy_from_player s ctx amount =
        (s, ⟨false, some "No other players available to buy from.", some source_user, []⟩) := by
      simp only [initiate_buy_from_player, validate_pos amount hpos, hsrc, get_all_users, hc]
      simp
    rw [hr]
    exact ⟨rfl, rfl, by simp [hc], fun h => rfl, fun h => absurd hc h⟩
  · have hne : (s.users.filter (fun u => u.id != source_user.id)).isEmpty = false := by
      cases hl : s.users.filter (fun u => u.id != source_user.id) with
      | nil => exact absurd hl hc
      | cons a l => rfl
    have hr : initiate_buy_from_player s ctx amount =
        (s, ⟨true, none, some source_user,
          s.users.filter (fun u => u.id != source_user.id)⟩) := by
      simp only [initiate_buy_from_player, validate_pos amount hpos, hsrc, get_all_users, hne]
      simp
    rw [hr]
    exact ⟨rfl, rfl, by simp [hc], fun h => absurd h hc, fun h => rfl⟩

/-- Witness for claim C7: alice initiates with bob and carol as candidates. -/
theorem initiate_buy_from_player_spec_witness :
    ((0 : Int) < 10 ∧ _get_logged_in_user sampleState ctxA = some aliceU ∧
      sampleState.users.filter (fun u => u.id != aliceU.id) ≠ []) ∧
    ((initiate_buy_from_player sampleState ctxA 10).1 = sampleState ∧
     (initiate_buy_from_player sampleState ctxA 10).2.source_user = some aliceU ∧
     (initiate_buy_from_player sampleState ctxA 10).2 =
       ⟨true, none, some aliceU,
        sampleState.users.filter (fun u => u.id != aliceU.id)⟩) := by
  have h := initiate_buy_from_player_spec sampleState ctxA 10 aliceU (by decide) (by decide)
  exact ⟨⟨by decide, by decide, by decide⟩,
    ⟨h.1, h.2.1, h.2.2.2.2 (by decide)⟩⟩

/-- A filter by the negated predicate is the identity when `find?` finds nothing. -/
theorem filter_neg_of_find?_none {α : Type} (p : α → Bool) (l : List α)
    (h : l.find? p = none) : l.filter (fun x => !(p x)) = l := by
  rw [List.find?_eq_none] at h
  apply List.filter_eq_self.mpr
  intro a ha
  have hna := h a ha
  cases hpa : p a with
  | false => simp [hpa]
  | true => exact absurd hpa hna

/-- Claim C5: `register_or_login_user` with an existing username reuses the
account (no new Account or User, balances untouched); with a fresh username it
creates one Account and one co-created User sharing the fresh id, display name
equal to the username and balance 0; in both cases it upserts the
(channel, externalId) link to the resolved account id, leaves every other
pair's link alone, and succeeds. -/
theorem register_or_login_spec (s : State) (ctx : ExternalContext)
    (username freshId : String) :
    (∀ existing, get_by_username s username = some existing →
      (register_or_login_user s ctx username freshId).2 = ⟨true, none, []⟩ ∧
      (register_or_login_user s ctx username freshId).1.accounts = s.accounts ∧
      (register_or_login_user s ctx username freshId).1.users = s.users ∧
      find_account_id (register_or_login_user s ctx username freshId).1
          ctx.provider ctx.provider_user_id = some existing.id ∧
      (∀ p pid, ¬(p = ctx.provider ∧ pid = ctx.provider_user_id) →
        find_account_id (register_or_login_user s ctx username freshId).1 p pid =
          find_account_id s p pid)) ∧
    (get_by_username s username = none →
      (register_or_login_user s ctx username freshId).2 = ⟨true, none, []⟩ ∧
      (register_or_login_user s ctx username freshId).1.accounts =
        s.accounts ++ [⟨freshId, username, ""⟩] ∧
      (register_or_login_user s ctx username freshId).1.users =
        s.users ++ [⟨freshId, username, "", 0⟩] ∧
      find_account_id (register_or_login_user s ctx username freshId).1
          ctx.provider ctx.provider_user_id = some freshId ∧
      (∀ p pid, ¬(p = ctx.provider ∧ pid = ctx.provider_user_id) →
        find_account_id (register_or_login_user s ctx username freshId).1 p pid =
          find_account_id s p pid)) := by
  constructor
  · intro existing hex
    have hr : register_or_login_user s ctx username freshId =
        (set_external_identity s ctx.provider ctx.provider_user_id existing.id,
         ⟨true, none, []⟩) := by
      simp only [register_or_login_user, hex]
    refine ⟨by simp only [hr], by simp only [hr, set_external_identity],
      by simp only [hr, set_external_identity], ?_, ?_⟩
    · simp only [hr]
      rw [find_account_id_set]
      simp
    · intro p pid h
      simp only [hr]
      rw [find_account_id_set, if_neg h]
  · intro hex
    have hr : register_or_login_user s ctx username freshId =
        (set_external_identity
          (add_user (create_account s ⟨freshId, username, ""⟩) ⟨freshId, username, "", 0⟩)
          ctx.provider ctx.provider_user_id freshId,
         ⟨true, none, []⟩) := by
      simp only [register_or_login_user, hex]
    refine ⟨by simp only [hr],
      by simp only [hr, set_external_identity, add_user, create_account],
      by simp only [hr, set_external_identity, add_user, create_account], ?_, ?_⟩
    · simp only [hr]
      rw [find_account_id_set]
      simp
    · intro p pid h
      simp only [hr]
      rw [find_account_id_set, if_neg h]
      rfl

/-- Witness for claim C5: logging in as existing "alice" and registering the
fresh username "newbie". -/
theorem register_or_login_spec_witness :
    get_by_username sampleState "alice" = some aliceAcct ∧
    ((register_or_login_user sampleState ctxA "alice" "f1").2 = ⟨true, none, []⟩ ∧
     (register_or_login_user sampleState ctxA "alice" "f1").1.accounts =
       sampleState.accounts ∧
     (register_or_login_user sampleState ctxA "alice" "f1").1.users = sampleState.users ∧
     find_account_id (register_or_login_user sampleState ctxA "alice" "f1").1
         ctxA.provider ctxA.provider_user_id = some aliceAcct.id) ∧
    get_by_username sampleState "newbie" = none ∧
    ((register_or_login_user sampleState ctxA "newbie" "f1").1.accounts =
       sampleState.accounts ++ [⟨"f1", "newbie", ""⟩] ∧
     (register_or_login_user sampleState ctxA "newbie" "f1").1.users =
       sampleState.users ++ [⟨"f1", "newbie", "", 0⟩] ∧
     find_account_id (register_or_login_user sampleState ctxA "newbie" "f1").1
         ctxA.provider ctxA.provider_user_id = some "f1") := by
  have h1 := (register_or_login_spec sampleState ctxA "alice" "f1").1 aliceAcct (by decide)
  have h2 := (register_or_login_spec sampleState ctxA "newbie" "f1").2 (by decide)
  exact ⟨by decide, ⟨h1.1, h1.2.1, h1.2.2.1, h1.2.2.2.1⟩, by decide,
    ⟨h2.2.1, h2.2.2.1, h2.2.2.2.1⟩⟩

/-- Claim C6: `logout_external_identity` deletes only the link of the exact
(channel, externalId) pair — a no-op when there is none — changes no account,
user or balance, and afterwards caller resolution on the same context yields
the not-logged-in outcome. -/
theorem logout_spec (s : State) (ctx : ExternalContext) :
    (logout_external_identity s ctx).2 = ⟨true, none, []⟩ ∧
    (logout_external_identity s ctx).1.accounts = s.accounts ∧
    (logout_external_identity s ctx).1.users = s.users ∧
    _get_logged_in_user (logout_external_identity s ctx).1 ctx = none ∧
    (∀ p pid, ¬(p = ctx.provider ∧ pid = ctx.provider_user_id) →
      find_account_id (logout_external_identity s ctx).1 p pid =
        find_account_id s p pid) ∧
    (find_account_id s ctx.provider ctx.provider_user_id = none →
      (logout_external_identity s ctx).1 = s) := by
  refine ⟨rfl, rfl, rfl, ?_, ?_, ?_⟩
  · show _get_logged_in_user
        (clear_external_identity s ctx.provider ctx.provider_user_id) ctx = none
    unfold _get_logged_in_user find_user_by_external
    rw [find_account_id_clear_self]
  · intro p pid h
    exact find_account_id_clear_other s ctx.provider ctx.provider_user_id p pid h
  · intro hn
    have hf : s.identities.find?
        (fun l => l.provider == ctx.provider &&
          l.provider_user_id == ctx.provider_user_id) = none := by
      unfold find_account_id at hn
      cases hfind : s.identities.find?
          (fun l => l.provider == ctx.provider &&
            l.provider_user_id == ctx.provider_user_id) with
      | none => rfl
      | some x =>
          rw [hfind] at hn
          exact absurd hn (by simp)
    show clear_external_identity s ctx.provider ctx.provider_user_id = s
    unfold clear_external_identity
    rw [filter_neg_of_find?_none _ _ hf]

/-- Witness for claim C6: alice logs out; an unrelated discord link is framed. -/
theorem logout_spec_witness :
    ((logout_external_identity sampleState ctxA).2 = ⟨true, none, []⟩ ∧
     (logout_external_identity sampleState ctxA).1.accounts = sampleState.accounts ∧
     (logout_external_identity sampleState ctxA).1.users = sampleState.users ∧
     _get_logged_in_user (logout_external_identity sampleState ctxA).1 ctxA = none) ∧
    find_account_id (logout_external_identity sampleState ctxA).1 "discord" "999" =
      find_account_id sampleState "discord" "999" := by
  have h := logout_spec sampleState ctxA
  exact ⟨⟨h.1, h.2.1, h.2.2.1, h.2.2.2.1⟩, h.2.2.2.2.1 "discord" "999" (by decide)⟩

end PokerBot
